import Mathlib

/-!
Shallow embedding of the Customer REST service.

The translated source is `service/routes.py` (the Flask-RESTX resource
handlers). The persistence layer `service/models.py` is not part of the
sources, so the `Customer` store operations it provides (`find`,
`find_by_*`, `all`, `create`, `update`, `delete`, `deserialize`) are
modelled from the specification, as marked on each definition.
Machine-level details that no property here depends on (logging, the
`Location` header URL, Swagger marshalling) are omitted.
-/

set_option autoImplicit false

/-- A persisted customer record: the fields of `customer_model` in
`service/routes.py` (`id` assigned by the store plus the six payload
fields; `member_since` is kept as its ISO date string). -/
structure Customer where
  id : Nat
  name : String
  address : String
  email : String
  phone_number : String
  member_since : String
  status : String
deriving DecidableEq

/-- The relational store backing the service: the customer rows plus the
next primary key the store will assign. -/
structure DB where
  rows : List Customer
  nextId : Nat
deriving DecidableEq

namespace Customer

/-- Modelled from the spec: `Customer.find` of `service/models.py` (not
under `src/`) — primary-key lookup of a record by its id. -/
def find (db : DB) (cid : Nat) : Option Customer :=
  db.rows.find? (fun c => c.id == cid)

/-- Modelled from the spec: `Customer.all` of `service/models.py` —
"listing with no filter returns all" records of the table. -/
def all (db : DB) : List Customer :=
  db.rows

/-- Modelled from the spec: `Customer.find_by_name` of
`service/models.py` — "listing with a filter returns only matching
records" (exact match on the attribute). -/
def find_by_name (db : DB) (s : String) : List Customer :=
  db.rows.filter (fun c => c.name == s)

/-- Modelled from the spec: `Customer.find_by_address` of
`service/models.py` — exact-match lookup on the address attribute. -/
def find_by_address (db : DB) (s : String) : List Customer :=
  db.rows.filter (fun c => c.address == s)

/-- Modelled from the spec: `Customer.find_by_email` of
`service/models.py` — exact-match lookup on the email attribute. -/
def find_by_email (db : DB) (s : String) : List Customer :=
  db.rows.filter (fun c => c.email == s)

/-- Modelled from the spec: `Customer.find_by_phone` of
`service/models.py` — exact-match lookup on the phone number. -/
def find_by_phone (db : DB) (s : String) : List Customer :=
  db.rows.filter (fun c => c.phone_number == s)

/-- Modelled from the spec: `Customer.find_by_member_since` of
`service/models.py` — exact-match lookup on the membership date (the
date is carried here as its ISO string). -/
def find_by_member_since (db : DB) (s : String) : List Customer :=
  db.rows.filter (fun c => c.member_since == s)

/-- Modelled from the spec: `Customer.find_by_status` of
`service/models.py` — exact-match lookup on the status attribute. -/
def find_by_status (db : DB) (s : String) : List Customer :=
  db.rows.filter (fun c => c.status == s)

/-- Modelled from the spec: `Customer.create` of `service/models.py` —
persists a new record, the id "assigned by store". -/
def create (db : DB) (c : Customer) : DB × Customer :=
  let c2 := { c with id := db.nextId }
  ({ rows := db.rows ++ [c2], nextId := db.nextId + 1 }, c2)

/-- Modelled from the spec: `Customer.update` of `service/models.py` —
saves the mutated record back to the store under its id. -/
def update (db : DB) (c : Customer) : DB :=
  { db with rows := db.rows.map (fun r => if r.id == c.id then c else r) }

/-- Modelled from the spec: `Customer.delete` of `service/models.py` —
removes the record from the store ("destroyed via DELETE"). -/
def delete (db : DB) (cid : Nat) : DB :=
  { db with rows := db.rows.filter (fun r => r.id != cid) }

end Customer

/-- A JSON request body for a customer: each of the six required payload
fields of `create_model` is either supplied or missing (the empty JSON
object is the all-`none` body). -/
structure CustomerBody where
  name : Option String
  address : Option String
  email : Option String
  phone_number : Option String
  member_since : Option String
  status : Option String
deriving DecidableEq

/-- The empty JSON object `\x7b\x7d` as a customer body. -/
def CustomerBody.empty : CustomerBody :=
  { name := none, address := none, email := none, phone_number := none,
    member_since := none, status := none }

/-- A fresh `Customer()` before deserialization, as built by
`CustomerCollection.post`. -/
def Customer.new : Customer :=
  { id := 0, name := "", address := "", email := "", phone_number := "",
    member_since := "", status := "" }

/-- Modelled from the spec: `Customer.deserialize` of
`service/models.py` — "validates required fields are present", copies
all six payload fields onto the record (never the id: "id is immutable
once assigned"), and "fails with BadRequest on missing/invalid fields"
(the error branch carries the 400 status the error handler produces). -/
def Customer.deserialize (c : Customer) (b : CustomerBody) : Except Nat Customer :=
  match b.name, b.address, b.email, b.phone_number, b.member_since, b.status with
  | some n, some a, some e, some p, some m, some s =>
    .ok { id := c.id, name := n, address := a, email := e,
          phone_number := p, member_since := m, status := s }
  | _, _, _, _, _, _ => .error 400

/-- `check_content_type` of `service/routes.py`: aborts 415 when the
request carries no `Content-Type` header, passes when the header equals
`content_type` exactly, aborts 415 otherwise. `true` means the check
passes. -/
def check_content_type (content_type : String) (hdr : Option String) : Bool :=
  match hdr with
  | none => false
  | some h => h == content_type

/-- The parsed query-string arguments of `customer_args` in
`service/routes.py`: each parameter is either absent (`none`) or carries
the supplied string. `member_since`, parsed by `inputs.date_from_iso8601`,
holds a valid date exactly when supplied; we carry its ISO string. -/
structure ListArgs where
  name : Option String
  address : Option String
  email : Option String
  phone_number : Option String
  member_since : Option String
  status : Option String
deriving DecidableEq

/-- The query with no parameter supplied. -/
def ListArgs.empty : ListArgs :=
  { name := none, address := none, email := none, phone_number := none,
    member_since := none, status := none }

/-- Python truthiness of a parsed string argument: `None` and the empty
string are falsy, any other string is truthy.  This is the test the
`if args[...]` chain of `CustomerCollection.get` performs. -/
def truthy : Option String → Bool
  | none => false
  | some s => s != ""

namespace CustomerResource

/-- `CustomerResource.get` of `service/routes.py`: read a customer by
id; 404 when absent, otherwise 200 with the serialized record. -/
def get (db : DB) (customer_id : Nat) : Nat × Option Customer :=
  match Customer.find db customer_id with
  | none => (404, none)
  | some customer => (200, some customer)

/-- `CustomerResource.put` of `service/routes.py`: checks the
`Content-Type` header first (415 on failure), then looks the customer up
(404 when absent), deserializes the body onto it (400 on invalid body),
saves the update and returns 200 with the updated record.  Result:
(HTTP status, response record, store after the request). -/
def put (hdr : Option String) (db : DB) (customer_id : Nat) (body : CustomerBody) :
    Nat × Option Customer × DB :=
  if check_content_type "application/json" hdr = false then
    (415, none, db)
  else
    match Customer.find db customer_id with
    | none => (404, none, db)
    | some customer =>
      match Customer.deserialize customer body with
      | .error e => (e, none, db)
      | .ok c2 => (200, some c2, Customer.update db c2)

/-- `CustomerResource.delete` of `service/routes.py`: looks the customer
up, deletes it when found, and returns 204 with no content either
way. -/
def delete (db : DB) (customer_id : Nat) : Nat × Option Customer × DB :=
  match Customer.find db customer_id with
  | some _ => (204, none, Customer.delete db customer_id)
  | none => (204, none, db)

end CustomerResource

namespace CustomerCollection

/-- `CustomerCollection.get` of `service/routes.py`: dispatches on the
first truthy query argument in the order name, address, email,
phone_number, member_since, and falls through to `Customer.all`
otherwise.  The parsed `status` argument is never consulted.
`member_since` is a parsed date, truthy exactly when supplied. -/
def get (db : DB) (args : ListArgs) : Nat × List Customer :=
  let customers :=
    if truthy args.name then Customer.find_by_name db (args.name.getD "")
    else if truthy args.address then Customer.find_by_address db (args.address.getD "")
    else if truthy args.email then Customer.find_by_email db (args.email.getD "")
    else if truthy args.phone_number then Customer.find_by_phone db (args.phone_number.getD "")
    else if args.member_since.isSome then
      Customer.find_by_member_since db (args.member_since.getD "")
    else Customer.all db
  (200, customers)

/-- Modelled from the spec: the JSON payload gate of
`CustomerCollection.post` ("POST without Content-Type returns 415") —
the request body is parsed as JSON only under the JSON media type; this
lives in framework glue not under `src/`. -/
def post_media_ok (hdr : Option String) : Bool :=
  match hdr with
  | none => false
  | some h => h == "application/json"

/-- `CustomerCollection.post` of `service/routes.py`: 415 without a JSON
`Content-Type`; otherwise deserializes the payload into a fresh
`Customer` (400 on missing fields, store unchanged), persists it with a
new id and returns 201 with the created record. -/
def post (hdr : Option String) (db : DB) (body : CustomerBody) :
    Nat × Option Customer × DB :=
  if post_media_ok hdr = false then
    (415, none, db)
  else
    match Customer.deserialize Customer.new body with
    | .error e => (e, none, db)
    | .ok customer =>
      let r := Customer.create db customer
      (201, some r.2, r.1)

end CustomerCollection

namespace SuspendResource

/-- `SuspendResource.put` of `service/routes.py`: looks the customer up;
when found, sets its status to "suspended", saves it and returns 200
with the record; aborts 404 otherwise. -/
def put (db : DB) (customer_id : Nat) : Nat × Option Customer × DB :=
  match Customer.find db customer_id with
  | some customer =>
    let c2 := { customer with status := "suspended" }
    (200, some c2, Customer.update db c2)
  | none => (404, none, db)

end SuspendResource

/-- The service-metadata payload of `get_service_info` in
`service/routes.py`. -/
structure ServiceInfo where
  name : String
  version : String
  paths : String
deriving DecidableEq

/-- `get_service_info` of `service/routes.py`: 200 with the service
name, version and the collection path (`url_for("list_customers")`,
rendered here as the path). -/
def get_service_info : Nat × ServiceInfo :=
  (200, { name := "Customer Service REST API", version := "1.0",
          paths := "/customers" })

/-- `handle_root_non_get_requests` of `service/routes.py`: 405 with an
error message, registered for POST, PUT, DELETE and PATCH on `/`. -/
def handle_root_non_get_requests : Nat × String :=
  (405, "Method not allowed. Please use GET method for this endpoint.")

/-- The HTTP verbs the root URL routes distinguish. -/
inductive Verb where
  | GET | POST | PUT | DELETE | PATCH
deriving DecidableEq

/-- Modelled from the spec: the URL-map dispatch for `/` ("Root `/`
returns service metadata on GET, 405 on other verbs") — the Flask app
factory and URL map are not under `src/`; GET reaches
`get_service_info`, the other verbs reach
`handle_root_non_get_requests`. -/
def root_dispatch : Verb → Nat × Option ServiceInfo
  | .GET => (get_service_info.1, some get_service_info.2)
  | _ => (handle_root_non_get_requests.1, none)

/-- A concrete stored customer for concrete evaluations. -/
def annActive : Customer :=
  { id := 1, name := "Ann", address := "addrA", email := "ann@x.io",
    phone_number := "111", member_since := "2024-01-01", status := "active" }

/-- A concrete one-row store whose next id is 2. -/
def dbAnn : DB := { rows := [annActive], nextId := 2 }

/-- A concrete full (all fields supplied) customer body. -/
def bodyFull : CustomerBody :=
  { name := some "Bob", address := some "addrB", email := some "bob@x.io",
    phone_number := some "222", member_since := some "2023-05-05",
    status := some "active" }

/-- `annActive` after the suspend action. -/
def annSusp : Customer := { annActive with status := "suspended" }

/-- The record the store assigns id 2 when `bodyFull` is POSTed to
`dbAnn`. -/
def bobRec : Customer :=
  { id := 2, name := "Bob", address := "addrB", email := "bob@x.io",
    phone_number := "222", member_since := "2023-05-05", status := "active" }

/-- A concrete query supplying only the address parameter (plus a status
value, which the handler ignores). -/
def argsAddr : ListArgs :=
  { name := none, address := some "addrA", email := none,
    phone_number := none, member_since := none, status := some "active" }

/-! ## Helper lemmas about the modelled store -/

/-- A record returned by a primary-key lookup carries the looked-up id. -/
theorem Customer.find_id_eq {db : DB} {cid : Nat} {c : Customer}
    (h : Customer.find db cid = some c) : c.id = cid := by
  have hp := List.find?_some h
  simpa using hp

/-- Saving a record whose id is `cid` makes it the record a lookup of
`cid` finds, provided such a record already existed. -/
theorem find?_map_update (rows : List Customer) (cid : Nat) (c c2 : Customer)
    (hf : rows.find? (fun r => r.id == cid) = some c) (hid : c2.id = cid) :
    (rows.map (fun r => if r.id == c2.id then c2 else r)).find?
      (fun r => r.id == cid) = some c2 := by
  induction rows with
  | nil => simp at hf
  | cons a l ih =>
    by_cases ha : a.id = cid
    · simp [List.find?_cons, ha, hid]
    · have ha' : (a.id == cid) = false := by simpa using ha
      have hne : (a.id == c2.id) = false := by
        simp only [hid]
        exact ha'
      rw [List.find?_cons_of_neg _ (by simp [ha])] at hf
      simp only [List.map_cons, hne, if_neg (by simp [hid, ha] : ¬(a.id == c2.id) = true)]
      rw [List.find?_cons_of_neg _ (by simp [ha])]
      exact ih hf

/-- The variant of `find?_map_update` phrased on the store operations. -/
theorem Customer.find_update {db : DB} {cid : Nat} {c c2 : Customer}
    (hf : Customer.find db cid = some c) (hid : c2.id = cid) :
    Customer.find (Customer.update db c2) cid = some c2 :=
  find?_map_update db.rows cid c c2 hf hid

/-- After deleting id `cid`, a lookup of `cid` finds nothing. -/
theorem Customer.find_delete (db : DB) (cid : Nat) :
    Customer.find (Customer.delete db cid) cid = none := by
  apply List.find?_eq_none.mpr
  intro a ha
  have h2 := (List.mem_filter.mp ha).2
  simp at h2 ⊢
  exact h2

/-- A lookup of a fresh id in the store extended with a record carrying
that id finds exactly that record. -/
theorem find?_append_fresh (rows : List Customer) (c : Customer) (n : Nat)
    (hc : c.id = n) (h : ∀ r ∈ rows, r.id ≠ n) :
    (rows ++ [c]).find? (fun r => r.id == n) = some c := by
  induction rows with
  | nil => simp [hc]
  | cons a l ih =>
    have ha : a.id ≠ n := h a (by simp)
    rw [List.cons_append, List.find?_cons_of_neg _ (by simp [ha])]
    · exact ih (fun r hr => h r (by simp [hr]))

/-- Deserializing onto a record never changes its id. -/
theorem Customer.deserialize_id {c c2 : Customer} {b : CustomerBody}
    (h : Customer.deserialize c b = .ok c2) : c2.id = c.id := by
  obtain ⟨bn, ba, be, bp, bm, bs⟩ := b
  cases bn <;> cases ba <;> cases be <;> cases bp <;> cases bm <;> cases bs <;>
    simp only [Customer.deserialize] at h <;> cases h
  rfl

/-! ## Claim theorems -/

/-- C1 counterexample: with the store holding only `annActive` (status
"active"), a GET /customers request supplying only `status=suspended`
returns `annActive` — a customer whose status is not the supplied value
— although no stored customer has status "suspended".  The response is
therefore not "exactly the customers whose status field equals the
supplied value". -/
theorem status_filter_ignored_cx :
    (CustomerCollection.get dbAnn
      { name := none, address := none, email := none, phone_number := none,
        member_since := none, status := some "suspended" }).2 = [annActive] ∧
    annActive.status ≠ "suspended" ∧
    Customer.find_by_status dbAnn "suspended" = [] := by
  decide

/-- C1 (amended): a GET /customers request supplying only the `status`
query parameter returns all records with status 200 — the parsed
`status` argument is never consulted by the handler's filter
dispatch. -/
theorem status_filter_ignored (db : DB) (s : String) :
    CustomerCollection.get db
      { name := none, address := none, email := none, phone_number := none,
        member_since := none, status := some s } = (200, db.rows) := by
  simp [CustomerCollection.get, truthy, Customer.all]

/-- C3: a POST /customers request with no Content-Type header is
answered 415, and a POST of the empty JSON object under the JSON media
type is answered 400; in both cases no customer record is returned and
the store is unchanged. -/
theorem post_bad_requests (db : DB) (body : CustomerBody) :
    CustomerCollection.post none db body = (415, none, db) ∧
    CustomerCollection.post (some "application/json") db CustomerBody.empty =
      (400, none, db) := by
  constructor
  · simp [CustomerCollection.post, CustomerCollection.post_media_ok]
  · simp [CustomerCollection.post, CustomerCollection.post_media_ok,
          CustomerBody.empty, Customer.deserialize]

/-- C4: DELETE /customers/id answers 204 with no content whether or not
the id exists; afterwards no customer with that id exists, and a second
DELETE of the same id again answers 204 and leaves the store
unchanged. -/
theorem delete_idempotent (db : DB) (cid : Nat) :
    (CustomerResource.delete db cid).1 = 204 ∧
    (CustomerResource.delete db cid).2.1 = none ∧
    Customer.find (CustomerResource.delete db cid).2.2 cid = none ∧
    CustomerResource.delete (CustomerResource.delete db cid).2.2 cid =
      (204, none, (CustomerResource.delete db cid).2.2) := by
  cases hf : Customer.find db cid with
  | none => simp [CustomerResource.delete, hf]
  | some c =>
    have hd := Customer.find_delete db cid
    simp [CustomerResource.delete, hf, hd]

/-- C8: GET on the root path returns the service-metadata payload
(name, version, paths) with status 200, and POST, PUT, DELETE and PATCH
on the root path are all answered 405. -/
theorem root_url_routes :
    root_dispatch .GET =
      (200, some { name := "Customer Service REST API", version := "1.0",
                   paths := "/customers" }) ∧
    root_dispatch .POST = (405, none) ∧
    root_dispatch .PUT = (405, none) ∧
    root_dispatch .DELETE = (405, none) ∧
    root_dispatch .PATCH = (405, none) := by
  decide

/-- C10: the Content-Type check used by PUT /customers/id accepts only
the exact header value "application/json": it passes on that exact
string, and for any other header value — or a missing header — the PUT
request is answered 415 with the store untouched. -/
theorem put_content_type_exact (hdr : Option String) (db : DB) (cid : Nat)
    (body : CustomerBody) (h : hdr ≠ some "application/json") :
    check_content_type "application/json" (some "application/json") = true ∧
    check_content_type "application/json" hdr = false ∧
    CustomerResource.put hdr db cid body = (415, none, db) := by
  have hc : check_content_type "application/json" hdr = false := by
    cases hdr with
    | none => rfl
    | some x =>
      have hx : x ≠ "application/json" := by simpa using h
      simp [check_content_type, hx]
  exact ⟨by decide, hc, by simp [CustomerResource.put, hc]⟩

/-- C10 witness: the check passes on the exact string, and a PUT whose
Content-Type header is "application/json; charset=utf-8" is answered
415. -/
theorem put_content_type_exact_witness :
    check_content_type "application/json" (some "application/json") = true ∧
    check_content_type "application/json"
      (some "application/json; charset=utf-8") = false ∧
    CustomerResource.put (some "application/json; charset=utf-8") dbAnn 1 bodyFull =
      (415, none, dbAnn) :=
  put_content_type_exact (some "application/json; charset=utf-8") dbAnn 1 bodyFull
    (by decide)

/-- C2: PUT /customers/id answers 415 when the Content-Type header is
missing or differs from "application/json"; with the right header it
answers 404 when no customer with the id exists; otherwise it replaces
every field of the stored customer by the values of the (full) JSON
body, keeps the id, saves the result, and returns it with 200. -/
theorem put_customer_spec (hdr : Option String) (db : DB) (cid : Nat)
    (body : CustomerBody) :
    (hdr ≠ some "application/json" →
      CustomerResource.put hdr db cid body = (415, none, db)) ∧
    (hdr = some "application/json" → Customer.find db cid = none →
      CustomerResource.put hdr db cid body = (404, none, db)) ∧
    (∀ c n a e p m s, hdr = some "application/json" →
      Customer.find db cid = some c →
      body = { name := some n, address := some a, email := some e,
               phone_number := some p, member_since := some m,
               status := some s } →
      CustomerResource.put hdr db cid body =
        (200,
         some { id := c.id, name := n, address := a, email := e,
                phone_number := p, member_since := m, status := s },
         Customer.update db
           { id := c.id, name := n, address := a, email := e,
             phone_number := p, member_since := m, status := s })) := by
  refine ⟨?_, ?_, ?_⟩
  · intro h
    have hc : check_content_type "application/json" hdr = false := by
      cases hdr with
      | none => rfl
      | some x =>
        have hx : x ≠ "application/json" := by simpa using h
        simp [check_content_type, hx]
    simp [CustomerResource.put, hc]
  · intro h1 h2
    subst h1
    simp [CustomerResource.put, check_content_type, h2]
  · intro c n a e p m s h1 h2 h3
    subst h1; subst h3
    simp [CustomerResource.put, check_content_type, h2, Customer.deserialize]

/-- C2 witness: the three branches at concrete inputs — wrong media
type, unknown id 2, and a full update of the stored customer 1. -/
theorem put_customer_spec_witness :
    CustomerResource.put (some "text/html") dbAnn 1 bodyFull = (415, none, dbAnn) ∧
    CustomerResource.put (some "application/json") dbAnn 2 bodyFull =
      (404, none, dbAnn) ∧
    CustomerResource.put (some "application/json") dbAnn 1 bodyFull =
      (200,
       some { id := annActive.id, name := "Bob", address := "addrB",
              email := "bob@x.io", phone_number := "222",
              member_since := "2023-05-05", status := "active" },
       Customer.update dbAnn
         { id := annActive.id, name := "Bob", address := "addrB",
           email := "bob@x.io", phone_number := "222",
           member_since := "2023-05-05", status := "active" }) :=
  ⟨(put_customer_spec (some "text/html") dbAnn 1 bodyFull).1 (by decide),
   (put_customer_spec (some "application/json") dbAnn 2 bodyFull).2.1 rfl (by decide),
   (put_customer_spec (some "application/json") dbAnn 1 bodyFull).2.2
     annActive "Bob" "addrB" "bob@x.io" "222" "2023-05-05" "active"
     rfl (by decide) rfl⟩

/-- C5: POSTing a full customer body and then GETting the id the
service returned yields a record whose six payload fields equal the
POSTed values (its id being the store's next id), provided the store's
next id is fresh — which the store maintains by construction. -/
theorem create_then_read (db : DB) (n a e p m s : String)
    (hfresh : ∀ r ∈ db.rows, r.id ≠ db.nextId) :
    CustomerCollection.post (some "application/json") db
      { name := some n, address := some a, email := some e,
        phone_number := some p, member_since := some m, status := some s } =
      (201,
       some { id := db.nextId, name := n, address := a, email := e,
              phone_number := p, member_since := m, status := s },
       { rows := db.rows ++
           [{ id := db.nextId, name := n, address := a, email := e,
              phone_number := p, member_since := m, status := s }],
         nextId := db.nextId + 1 }) ∧
    CustomerResource.get
      { rows := db.rows ++
          [{ id := db.nextId, name := n, address := a, email := e,
             phone_number := p, member_since := m, status := s }],
        nextId := db.nextId + 1 } db.nextId =
      (200, some { id := db.nextId, name := n, address := a, email := e,
                   phone_number := p, member_since := m, status := s }) := by
  constructor
  · simp [CustomerCollection.post, CustomerCollection.post_media_ok,
          Customer.deserialize, Customer.create, Customer.new]
  · have hfind : Customer.find
        { rows := db.rows ++
            [{ id := db.nextId, name := n, address := a, email := e,
               phone_number := p, member_since := m, status := s }],
          nextId := db.nextId + 1 } db.nextId =
        some { id := db.nextId, name := n, address := a, email := e,
               phone_number := p, member_since := m, status := s } :=
      find?_append_fresh db.rows _ db.nextId rfl hfresh
    simp [CustomerResource.get, hfind]

/-- C5 witness: POSTing `bodyFull` to `dbAnn` creates `bobRec` with id
2, and GET /customers/2 then returns exactly `bobRec`. -/
theorem create_then_read_witness :
    CustomerCollection.post (some "application/json") dbAnn
      { name := some "Bob", address := some "addrB", email := some "bob@x.io",
        phone_number := some "222", member_since := some "2023-05-05",
        status := some "active" } =
      (201, some bobRec, { rows := dbAnn.rows ++ [bobRec], nextId := 3 }) ∧
    CustomerResource.get { rows := dbAnn.rows ++ [bobRec], nextId := 3 } 2 =
      (200, some bobRec) :=
  create_then_read dbAnn "Bob" "addrB" "bob@x.io" "222" "2023-05-05" "active"
    (by decide)

/-- C6: for an existing customer, PUT /customers/id/suspend answers 200
with the record whose status is "suspended" and whose id, name, address,
email, phone number and membership date are unchanged, and that record
is what the store henceforth holds under the id; for an unknown id it
answers 404 and leaves the store unchanged. -/
theorem suspend_spec (db : DB) (cid : Nat) :
    (Customer.find db cid = none →
      SuspendResource.put db cid = (404, none, db)) ∧
    (∀ c, Customer.find db cid = some c →
      SuspendResource.put db cid =
        (200, some { c with status := "suspended" },
         Customer.update db { c with status := "suspended" }) ∧
      Customer.find (Customer.update db { c with status := "suspended" }) cid =
        some { c with status := "suspended" } ∧
      ({ c with status := "suspended" } : Customer).id = c.id ∧
      ({ c with status := "suspended" } : Customer).name = c.name ∧
      ({ c with status := "suspended" } : Customer).address = c.address ∧
      ({ c with status := "suspended" } : Customer).email = c.email ∧
      ({ c with status := "suspended" } : Customer).phone_number = c.phone_number ∧
      ({ c with status := "suspended" } : Customer).member_since = c.member_since ∧
      ({ c with status := "suspended" } : Customer).status = "suspended") := by
  constructor
  · intro h
    simp [SuspendResource.put, h]
  · intro c hc
    have hc' := Customer.find_id_eq hc
    have hid : ({ c with status := "suspended" } : Customer).id = cid := hc'
    exact ⟨by simp [SuspendResource.put, hc], Customer.find_update hc hid,
           rfl, rfl, rfl, rfl, rfl, rfl, rfl⟩

/-- C6 witness: suspending the stored customer 1 of `dbAnn` yields
`annSusp` — same fields, status "suspended" — persisted under id 1. -/
theorem suspend_spec_witness :
    SuspendResource.put dbAnn 1 =
      (200, some annSusp, Customer.update dbAnn annSusp) ∧
    Customer.find (Customer.update dbAnn annSusp) 1 = some annSusp ∧
    annSusp.id = annActive.id ∧
    annSusp.name = annActive.name ∧
    annSusp.address = annActive.address ∧
    annSusp.email = annActive.email ∧
    annSusp.phone_number = annActive.phone_number ∧
    annSusp.member_since = annActive.member_since ∧
    annSusp.status = "suspended" :=
  (suspend_spec dbAnn 1).2 annActive (by decide)

/-- C7: an assigned id never changes: whenever PUT /customers/id or
PUT /customers/id/suspend succeeds (status 200), the returned record
carries the requested id, and it is the record the store now holds
under that id. -/
theorem id_immutable (hdr : Option String) (db : DB) (cid : Nat)
    (body : CustomerBody) :
    (∀ c db2, CustomerResource.put hdr db cid body = (200, some c, db2) →
      c.id = cid ∧ Customer.find db2 cid = some c) ∧
    (∀ c db2, SuspendResource.put db cid = (200, some c, db2) →
      c.id = cid ∧ Customer.find db2 cid = some c) := by
  constructor
  · intro c db2 h
    unfold CustomerResource.put at h
    by_cases hcc : check_content_type "application/json" hdr = false
    · rw [if_pos hcc] at h
      simp at h
    · rw [if_neg hcc] at h
      cases hf : Customer.find db cid with
      | none => rw [hf] at h; simp at h
      | some c0 =>
        rw [hf] at h
        dsimp only at h
        cases hd : Customer.deserialize c0 body with
        | error e => rw [hd] at h; simp at h
        | ok c2 =>
          rw [hd] at h
          simp only [Prod.mk.injEq] at h
          obtain ⟨-, h2, h3⟩ := h
          obtain rfl : c2 = c := Option.some.inj h2
          subst h3
          have hid : c2.id = cid := by
            rw [Customer.deserialize_id hd]
            exact Customer.find_id_eq hf
          exact ⟨hid, Customer.find_update hf hid⟩
  · intro c db2 h
    unfold SuspendResource.put at h
    cases hf : Customer.find db cid with
    | none => rw [hf] at h; simp at h
    | some c0 =>
      rw [hf] at h
      dsimp only at h
      simp only [Prod.mk.injEq] at h
      obtain ⟨-, h2, h3⟩ := h
      obtain rfl : ({ c0 with status := "suspended" } : Customer) = c :=
        Option.some.inj h2
      subst h3
      have h0 := Customer.find_id_eq hf
      have hid : ({ c0 with status := "suspended" } : Customer).id = cid := h0
      exact ⟨hid, Customer.find_update hf hid⟩

/-- C7 witness: suspending customer 1 of `dbAnn` succeeds and the
record stored under id 1 still carries id 1. -/
theorem id_immutable_witness :
    annSusp.id = 1 ∧ Customer.find (Customer.update dbAnn annSusp) 1 = some annSusp :=
  (id_immutable (some "application/json") dbAnn 1 bodyFull).2 annSusp
    (Customer.update dbAnn annSusp) (by decide)

/-- C9 counterexample: with `name` supplied as the empty string and
`address` supplied as "addrA", the first present parameter (name) does
not determine the result and the later address parameter is not
ignored: the handler returns the address match `annActive`, while the
name filter matches nothing. -/
theorem first_param_wins_cx :
    (CustomerCollection.get dbAnn
      { name := some "", address := some "addrA", email := none,
        phone_number := none, member_since := none, status := none }).2 =
      [annActive] ∧
    Customer.find_by_name dbAnn "" = [] ∧
    annActive.name ≠ "" := by
  decide

/-- C9 (amended): with no query parameter supplied all records are
returned; otherwise the first parameter in the order name, address,
email, phone_number, member_since that is supplied with a non-empty
value (member_since: supplied at all) determines the result as an
exact-match filter, every other parameter — parameters supplied with an
empty value, the status parameter, and all later parameters — being
ignored; when no parameter is supplied with a non-empty value, all
records are returned. -/
theorem first_truthy_param_wins (db : DB) (args : ListArgs) :
    (∀ s, args.name = some s → s ≠ "" →
      CustomerCollection.get db args = (200, Customer.find_by_name db s)) ∧
    (∀ s, truthy args.name = false → args.address = some s → s ≠ "" →
      CustomerCollection.get db args = (200, Customer.find_by_address db s)) ∧
    (∀ s, truthy args.name = false → truthy args.address = false →
      args.email = some s → s ≠ "" →
      CustomerCollection.get db args = (200, Customer.find_by_email db s)) ∧
    (∀ s, truthy args.name = false → truthy args.address = false →
      truthy args.email = false → args.phone_number = some s → s ≠ "" →
      CustomerCollection.get db args = (200, Customer.find_by_phone db s)) ∧
    (∀ s, truthy args.name = false → truthy args.address = false →
      truthy args.email = false → truthy args.phone_number = false →
      args.member_since = some s →
      CustomerCollection.get db args =
        (200, Customer.find_by_member_since db s)) ∧
    (truthy args.name = false → truthy args.address = false →
      truthy args.email = false → truthy args.phone_number = false →
      args.member_since = none →
      CustomerCollection.get db args = (200, db.rows)) := by
  refine ⟨?_, ?_, ?_, ?_, ?_, ?_⟩
  · intro s hn hs
    simp only [CustomerCollection.get, hn]
    simp [truthy, hs]
  · intro s h1 hn hs
    simp only [CustomerCollection.get, h1, hn]
    simp [truthy, hs]
  · intro s h1 h2 hn hs
    simp only [CustomerCollection.get, h1, h2, hn]
    simp [truthy, hs]
  · intro s h1 h2 h3 hn hs
    simp only [CustomerCollection.get, h1, h2, h3, hn]
    simp [truthy, hs]
  · intro s h1 h2 h3 h4 hn
    simp only [CustomerCollection.get, h1, h2, h3, h4, hn]
    simp
  · intro h1 h2 h3 h4 hn
    simp only [CustomerCollection.get, h1, h2, h3, h4, hn]
    simp [Customer.all]

/-- C9 witness: on `dbAnn`, a query supplying only the address (plus an
ignored status value) filters by address, and the empty query returns
all rows. -/
theorem first_truthy_param_wins_witness :
    CustomerCollection.get dbAnn argsAddr =
      (200, Customer.find_by_address dbAnn "addrA") ∧
    CustomerCollection.get dbAnn ListArgs.empty = (200, dbAnn.rows) :=
  ⟨(first_truthy_param_wins dbAnn argsAddr).2.1 "addrA" rfl rfl (by decide),
   (first_truthy_param_wins dbAnn ListArgs.empty).2.2.2.2.2
     rfl rfl rfl rfl rfl⟩
